import Mathlib

/-!
Shallow embedding of the chrono-vehicle core (HMMWV model) in Lean 4.

Scalars are modelled as rationals: the C++ code uses `double`, but every
claim under consideration is about exact field arithmetic and discrete
dispatch, so ℚ is the natural executable carrier.

Embedded source files:
 - subsys/powertrain/ChSimplePowertrain.cpp (ChSimplePowertrain)
 - subsys/driveline/ChShaftsDriveline2WD    (from models/hmmwv_common/HMMWV.h)
 - models/hmmwv/vehicle/HMMWV_VehicleSolidAxle.cpp (HMMWV_VehicleSolidAxle)
 - subsys/ChSolidAxle.h / ChDoubleWishboneReduced.h (hardpoint mirroring)
-/

set_option autoImplicit false

namespace chrono

/-- Wheel identifier FRONT_LEFT of the ChWheelId enumeration (value 0). -/
def FRONT_LEFT : ℕ := 0

/-- Wheel identifier FRONT_RIGHT of the ChWheelId enumeration (value 1). -/
def FRONT_RIGHT : ℕ := 1

/-- Wheel identifier REAR_LEFT of the ChWheelId enumeration (value 2). -/
def REAR_LEFT : ℕ := 2

/-- Wheel identifier REAR_RIGHT of the ChWheelId enumeration (value 3). -/
def REAR_RIGHT : ℕ := 3

/-- Suspension side selector, ChSuspension::Side. -/
inductive Side where
| LEFT : Side
| RIGHT : Side
deriving DecidableEq

/-- A 3-vector with rational components (ChVector). -/
structure Vec3 where
  x : ℚ
  y : ℚ
  z : ℚ
deriving DecidableEq

/-- A quaternion with rational components (ChQuaternion). -/
structure Quat where
  e0 : ℚ
  e1 : ℚ
  e2 : ℚ
  e3 : ℚ
deriving DecidableEq

/-- Externally supplied tire force: force vector, moment vector,
application point (ChTireForce). -/
structure ChTireForce where
  force : Vec3
  moment : Vec3
  point : Vec3
deriving DecidableEq

/-! ### Powertrain: ChSimplePowertrain -/

/-- Drive mode of ChPowertrain: FORWARD, REVERSE or NEUTRAL. -/
inductive DriveMode where
| FORWARD : DriveMode
| REVERSE : DriveMode
| NEUTRAL : DriveMode
deriving DecidableEq

/-- The per-model constant parameters of a simple powertrain, supplied by
the concrete subclass through the virtual getters GetForwardGearRatio,
GetReverseGearRatio, GetMaxTorque, GetMaxSpeed. -/
structure PowertrainData where
  gearRatioFwd : ℚ
  gearRatioRev : ℚ
  maxTorque : ℚ
  maxSpeed : ℚ
deriving DecidableEq

/-- Mutable state of ChSimplePowertrain: the drive mode, the cached gear
ratio m_current_gear_ratio, and the three computed outputs m_motorSpeed,
m_motorTorque, m_shaftTorque. -/
structure ChSimplePowertrain where
  m_drive_mode : DriveMode
  m_gear_cur : ℚ
  m_motorSpeed : ℚ
  m_motorTorque : ℚ
  m_shaftTorque : ℚ
deriving DecidableEq

/-- ChSimplePowertrain::Initialize: caches the forward gear ratio. -/
def ChSimplePowertrain.Initialize (p : PowertrainData)
    (s : ChSimplePowertrain) : ChSimplePowertrain :=
  { s with m_gear_cur := p.gearRatioFwd }

/-- ChSimplePowertrain::SetDriveMode: stores the mode and recomputes the
cached gear ratio; NEUTRAL uses the literal 1e20. -/
def ChSimplePowertrain.SetDriveMode (p : PowertrainData)
    (s : ChSimplePowertrain) (mode : DriveMode) : ChSimplePowertrain :=
  { s with
    m_drive_mode := mode
    m_gear_cur :=
      match mode with
      | DriveMode.FORWARD => p.gearRatioFwd
      | DriveMode.REVERSE => p.gearRatioRev
      | DriveMode.NEUTRAL => (10 : ℚ) ^ 20 }

/-- ChSimplePowertrain::Update: recomputes motor speed, motor torque and
shaft torque from throttle and shaft speed; the time argument is unused
by the body. -/
def ChSimplePowertrain.Update (p : PowertrainData) (s : ChSimplePowertrain)
    (_time throttle shaft_speed : ℚ) : ChSimplePowertrain :=
  let motorSpeed := shaft_speed / s.m_gear_cur
  let motorTorque := (p.maxTorque - motorSpeed * (p.maxTorque / p.maxSpeed)) * throttle
  let shaftTorque := motorTorque / s.m_gear_cur
  { s with
    m_motorSpeed := motorSpeed
    m_motorTorque := motorTorque
    m_shaftTorque := shaftTorque }

/-! ### Driveline: ChShaftsDriveline2WD -/

/-- A 1-d.o.f. rotational shaft with scalar inertia (ChShaft). -/
structure ChShaft where
  m_inertia : ℚ
deriving DecidableEq

/-- A rigid body; only the feature the driveline precondition inspects is
modelled: the handle of the physical system it is registered with
(GetSystem), none when unregistered. -/
structure ChBody where
  m_system : Option ℕ
deriving DecidableEq

/-- The angled gearbox constraint (ChShaftsGearboxAngled) created between
driveshaft and differential box: its two shafts, truss body, the two
direction vectors and the transmission ratio. -/
structure ChShaftsGearboxAngled where
  shaft1 : ChShaft
  shaft2 : ChShaft
  truss : ChBody
  dir1 : Vec3
  dir2 : Vec3
  transmission : ℚ
deriving DecidableEq

/-- The three-member planetary constraint (ChShaftsPlanetary): carrier and
two shafts, the ordinary transmission ratio t0, and the reaction torques
the constraint currently reports on members 2 and 3 (written back by the
external solver each step; zero at construction). -/
structure ChShaftsPlanetary where
  carrier : ChShaft
  shaft2 : ChShaft
  shaft3 : ChShaft
  t0 : ℚ
  torqueReact2 : ℚ
  torqueReact3 : ℚ
deriving DecidableEq

/-- ChShaftsPlanetary::GetTorqueReactionOn2. -/
def ChShaftsPlanetary.GetTorqueReactionOn2 (pl : ChShaftsPlanetary) : ℚ :=
  pl.torqueReact2

/-- ChShaftsPlanetary::GetTorqueReactionOn3. -/
def ChShaftsPlanetary.GetTorqueReactionOn3 (pl : ChShaftsPlanetary) : ℚ :=
  pl.torqueReact3

/-- Per-model constants of ChShaftsDriveline2WD, supplied by the concrete
subclass through GetDriveshaftInertia, GetDifferentialBoxInertia,
GetConicalGearRatio, GetDifferentialRatio. -/
structure DrivelineData where
  driveshaftInertia : ℚ
  diffBoxInertia : ℚ
  conicalRatioT : ℚ
  differentialT0 : ℚ
deriving DecidableEq

/-- Modelled from the spec: HMMWV_Driveline2WD::GetDifferentialRatio is not
under src/ (only the ChShaftsDriveline2WD template is); the spec fixes the
ordinary differential ratio at -1, "the standard open-differential
relation", matching the template's own comment "The case of the
differential is simple: t0=-1". -/
def HMMWV_GetDifferentialRatioT0 : ℚ := -1

/-- State of ChShaftsDriveline2WD after Initialize: the created driveshaft,
differential box, conical gear constraint and planetary differential. -/
structure ChShaftsDriveline2WD where
  m_dir_motor_block : Vec3
  m_dir_axle : Vec3
  m_driveshaft : ChShaft
  m_differentialbox : ChShaft
  m_conicalgear : ChShaftsGearboxAngled
  m_differential : ChShaftsPlanetary
deriving DecidableEq

/-- ChShaftsDriveline2WD::Initialize.  The C++ body begins with
assert(chassis); assert(axle_L); assert(axle_R); assert(chassis->GetSystem());
modelled as returning none (assertion-grade abort) when violated.  On
success it creates the driveshaft and differential-box shafts, the conical
gear between them anchored on the chassis, and the planetary differential
with the differential box as carrier and the two axle shafts as members 2
and 3, with ordinary ratio GetDifferentialRatio(). -/
def ChShaftsDriveline2WD.Initialize (d : DrivelineData)
    (dir_motor_block dir_axle : Vec3)
    (chassis : Option ChBody) (axle_L axle_R : Option ChShaft) :
    Option ChShaftsDriveline2WD :=
  match chassis, axle_L, axle_R with
  | some c, some aL, some aR =>
    match c.m_system with
    | some _ =>
      let driveshaft : ChShaft := { m_inertia := d.driveshaftInertia }
      let diffbox : ChShaft := { m_inertia := d.diffBoxInertia }
      some
        { m_dir_motor_block := dir_motor_block
          m_dir_axle := dir_axle
          m_driveshaft := driveshaft
          m_differentialbox := diffbox
          m_conicalgear :=
            { shaft1 := driveshaft
              shaft2 := diffbox
              truss := c
              dir1 := dir_motor_block
              dir2 := dir_axle
              transmission := d.conicalRatioT }
          m_differential :=
            { carrier := diffbox
              shaft2 := aL
              shaft3 := aR
              t0 := d.differentialT0
              torqueReact2 := 0
              torqueReact3 := 0 } }
    | none => none
  | _, _, _ => none

/-- ChShaftsDriveline2WD::GetWheelTorque: a four-way switch on the wheel
id, with default -1. -/
def ChShaftsDriveline2WD.GetWheelTorque (dl : ChShaftsDriveline2WD)
    (which : ℕ) : ℚ :=
  if which = FRONT_LEFT then 0
  else if which = FRONT_RIGHT then 0
  else if which = REAR_LEFT then -dl.m_differential.GetTorqueReactionOn2
  else if which = REAR_RIGHT then -dl.m_differential.GetTorqueReactionOn3
  else -1

/-! ### Hardpoint mirroring (ChSolidAxle, ChDoubleWishboneReduced) -/

/-- Modelled from the spec: the suspension construction code
(ChSolidAxle.cpp / ChDoubleWishboneReduced.cpp) is not under src/; its
headers and the spec state that all point locations are given for the
right side and the left side is obtained by reflecting the y coordinate.
This is the per-point reflection. -/
def mirrorPoint (p : Vec3) : Vec3 :=
  { x := p.x, y := -p.y, z := p.z }

/-- Modelled from the spec: the left-side hardpoint table is the right-side
table with every point's Y component negated, for any suspension variant
(the point-identifier type is a parameter covering both PointId
enumerations). -/
def leftHardpoints {α : Type} (tbl : α → Vec3) : α → Vec3 :=
  fun i => mirrorPoint (tbl i)

/-! ### Vehicle assembly: HMMWV_VehicleSolidAxle -/

/-- The per-side observable state of a suspension subsystem consumed by the
vehicle accessors (spindle body identity, spindle kinematics, axle speed,
spring diagnostics) together with the per-step inputs the vehicle writes
into it (steering displacement, applied tire forces). -/
structure ChSuspension where
  m_spindle : Side → ℕ
  m_spindlePos : Side → Vec3
  m_spindleRot : Side → Quat
  m_spindleLinVel : Side → Vec3
  m_spindleAngVel : Side → Vec3
  m_axleSpeed : Side → ℚ
  m_springForce : Side → ℚ
  m_springLen : Side → ℚ
  m_steerDispl : ℚ
  m_appliedTireForce : Side → ChTireForce

/-- ChSuspension::GetSpindle. -/
def ChSuspension.GetSpindle (s : ChSuspension) (side : Side) : ℕ :=
  s.m_spindle side

/-- ChSuspension::GetSpindlePos. -/
def ChSuspension.GetSpindlePos (s : ChSuspension) (side : Side) : Vec3 :=
  s.m_spindlePos side

/-- ChSuspension::GetSpindleRot. -/
def ChSuspension.GetSpindleRot (s : ChSuspension) (side : Side) : Quat :=
  s.m_spindleRot side

/-- ChSuspension::GetSpindleLinVel. -/
def ChSuspension.GetSpindleLinVel (s : ChSuspension) (side : Side) : Vec3 :=
  s.m_spindleLinVel side

/-- ChSuspension::GetSpindleAngVel. -/
def ChSuspension.GetSpindleAngVel (s : ChSuspension) (side : Side) : Vec3 :=
  s.m_spindleAngVel side

/-- ChSuspension::GetAxleSpeed. -/
def ChSuspension.GetAxleSpeed (s : ChSuspension) (side : Side) : ℚ :=
  s.m_axleSpeed side

/-- ChSuspension::GetSpringForce. -/
def ChSuspension.GetSpringForce (s : ChSuspension) (side : Side) : ℚ :=
  s.m_springForce side

/-- ChSuspension::GetSpringLen. -/
def ChSuspension.GetSpringLen (s : ChSuspension) (side : Side) : ℚ :=
  s.m_springLen side

/-- ChSuspension::ApplySteering: maps the scalar displacement onto the
tie-rod anchors; observably, the last applied displacement. -/
def ChSuspension.ApplySteering (s : ChSuspension) (displ : ℚ) : ChSuspension :=
  { s with m_steerDispl := displ }

/-- ChSuspension::ApplyTireForce: overwrites the force applied to the given
side's spindle for the current step. -/
def ChSuspension.ApplyTireForce (s : ChSuspension) (side : Side)
    (f : ChTireForce) : ChSuspension :=
  { s with
    m_appliedTireForce := fun sd => if sd = side then f else s.m_appliedTireForce sd }

/-- A simple brake (ChBrakeSimple): holds the last applied modulation. -/
structure ChBrakeSimple where
  m_modulation : ℚ
deriving DecidableEq

/-- ChBrakeSimple::ApplyBrakeModulation. -/
def ChBrakeSimple.ApplyBrakeModulation (b : ChBrakeSimple) (braking : ℚ) :
    ChBrakeSimple :=
  { b with m_modulation := braking }

/-- HMMWV_Powertrain::Update(time, throttle) — its body is not under src/;
the vehicle claims only concern the invocation itself, recorded as the
argument pair passed by the vehicle. -/
def HMMWV_Powertrain.Update (_prev : Option (ℚ × ℚ)) (time throttle : ℚ) :
    Option (ℚ × ℚ) :=
  some (time, throttle)

/-- The HMMWV solid-axle vehicle assembly: two suspensions, four brakes and
the powertrain invocation record. -/
structure HMMWV_VehicleSolidAxle where
  m_front_susp : ChSuspension
  m_rear_susp : ChSuspension
  m_front_right_brake : ChBrakeSimple
  m_front_left_brake : ChBrakeSimple
  m_rear_right_brake : ChBrakeSimple
  m_rear_left_brake : ChBrakeSimple
  m_powertrain : Option (ℚ × ℚ)

/-- HMMWV_VehicleSolidAxle::GetWheelBody: four-way switch with the
front-right spindle as the default fallback. -/
def HMMWV_VehicleSolidAxle.GetWheelBody (v : HMMWV_VehicleSolidAxle)
    (which : ℕ) : ℕ :=
  if which = FRONT_LEFT then v.m_front_susp.GetSpindle Side.LEFT
  else if which = FRONT_RIGHT then v.m_front_susp.GetSpindle Side.RIGHT
  else if which = REAR_LEFT then v.m_rear_susp.GetSpindle Side.LEFT
  else if which = REAR_RIGHT then v.m_rear_susp.GetSpindle Side.RIGHT
  else v.m_front_susp.GetSpindle Side.RIGHT

/-- HMMWV_VehicleSolidAxle::GetWheelPos. -/
def HMMWV_VehicleSolidAxle.GetWheelPos (v : HMMWV_VehicleSolidAxle)
    (which : ℕ) : Vec3 :=
  if which = FRONT_LEFT then v.m_front_susp.GetSpindlePos Side.LEFT
  else if which = FRONT_RIGHT then v.m_front_susp.GetSpindlePos Side.RIGHT
  else if which = REAR_LEFT then v.m_rear_susp.GetSpindlePos Side.LEFT
  else if which = REAR_RIGHT then v.m_rear_susp.GetSpindlePos Side.RIGHT
  else v.m_front_susp.GetSpindlePos Side.RIGHT

/-- HMMWV_VehicleSolidAxle::GetWheelRot. -/
def HMMWV_VehicleSolidAxle.GetWheelRot (v : HMMWV_VehicleSolidAxle)
    (which : ℕ) : Quat :=
  if which = FRONT_LEFT then v.m_front_susp.GetSpindleRot Side.LEFT
  else if which = FRONT_RIGHT then v.m_front_susp.GetSpindleRot Side.RIGHT
  else if which = REAR_LEFT then v.m_rear_susp.GetSpindleRot Side.LEFT
  else if which = REAR_RIGHT then v.m_rear_susp.GetSpindleRot Side.RIGHT
  else v.m_front_susp.GetSpindleRot Side.RIGHT

/-- HMMWV_VehicleSolidAxle::GetWheelLinVel. -/
def HMMWV_VehicleSolidAxle.GetWheelLinVel (v : HMMWV_VehicleSolidAxle)
    (which : ℕ) : Vec3 :=
  if which = FRONT_LEFT then v.m_front_susp.GetSpindleLinVel Side.LEFT
  else if which = FRONT_RIGHT then v.m_front_susp.GetSpindleLinVel Side.RIGHT
  else if which = REAR_LEFT then v.m_rear_susp.GetSpindleLinVel Side.LEFT
  else if which = REAR_RIGHT then v.m_rear_susp.GetSpindleLinVel Side.RIGHT
  else v.m_front_susp.GetSpindleLinVel Side.RIGHT

/-- HMMWV_VehicleSolidAxle::GetWheelAngVel. -/
def HMMWV_VehicleSolidAxle.GetWheelAngVel (v : HMMWV_VehicleSolidAxle)
    (which : ℕ) : Vec3 :=
  if which = FRONT_LEFT then v.m_front_susp.GetSpindleAngVel Side.LEFT
  else if which = FRONT_RIGHT then v.m_front_susp.GetSpindleAngVel Side.RIGHT
  else if which = REAR_LEFT then v.m_rear_susp.GetSpindleAngVel Side.LEFT
  else if which = REAR_RIGHT then v.m_rear_susp.GetSpindleAngVel Side.RIGHT
  else v.m_front_susp.GetSpindleAngVel Side.RIGHT

/-- HMMWV_VehicleSolidAxle::GetWheelOmega: four-way switch with -1 as the
default fallback. -/
def HMMWV_VehicleSolidAxle.GetWheelOmega (v : HMMWV_VehicleSolidAxle)
    (which : ℕ) : ℚ :=
  if which = FRONT_LEFT then v.m_front_susp.GetAxleSpeed Side.LEFT
  else if which = FRONT_RIGHT then v.m_front_susp.GetAxleSpeed Side.RIGHT
  else if which = REAR_LEFT then v.m_rear_susp.GetAxleSpeed Side.LEFT
  else if which = REAR_RIGHT then v.m_rear_susp.GetAxleSpeed Side.RIGHT
  else -1

/-- HMMWV_VehicleSolidAxle::GetSpringForce. -/
def HMMWV_VehicleSolidAxle.GetSpringForce (v : HMMWV_VehicleSolidAxle)
    (which : ℕ) : ℚ :=
  if which = FRONT_LEFT then v.m_front_susp.GetSpringForce Side.LEFT
  else if which = FRONT_RIGHT then v.m_front_susp.GetSpringForce Side.RIGHT
  else if which = REAR_LEFT then v.m_rear_susp.GetSpringForce Side.LEFT
  else if which = REAR_RIGHT then v.m_rear_susp.GetSpringForce Side.RIGHT
  else -1

/-- HMMWV_VehicleSolidAxle::GetSpringLength. -/
def HMMWV_VehicleSolidAxle.GetSpringLength (v : HMMWV_VehicleSolidAxle)
    (which : ℕ) : ℚ :=
  if which = FRONT_LEFT then v.m_front_susp.GetSpringLen Side.LEFT
  else if which = FRONT_RIGHT then v.m_front_susp.GetSpringLen Side.RIGHT
  else if which = REAR_LEFT then v.m_rear_susp.GetSpringLen Side.LEFT
  else if which = REAR_RIGHT then v.m_rear_susp.GetSpringLen Side.RIGHT
  else -1

/-- HMMWV_VehicleSolidAxle::Update: one pass that applies the steering
displacement 0.08*steering to the front suspension, invokes the powertrain
with (time, throttle), applies the four tire forces to the four spindles,
and applies the braking value to all four brakes. -/
def HMMWV_VehicleSolidAxle.Update (v : HMMWV_VehicleSolidAxle)
    (time throttle steering braking : ℚ) (tire_forces : ℕ → ChTireForce) :
    HMMWV_VehicleSolidAxle :=
  let displ := (8 / 100 : ℚ) * steering
  let front1 := v.m_front_susp.ApplySteering displ
  let pw := HMMWV_Powertrain.Update v.m_powertrain time throttle
  let front2 := (front1.ApplyTireForce Side.RIGHT (tire_forces FRONT_RIGHT)).ApplyTireForce
    Side.LEFT (tire_forces FRONT_LEFT)
  let rear2 := (v.m_rear_susp.ApplyTireForce Side.RIGHT (tire_forces REAR_RIGHT)).ApplyTireForce
    Side.LEFT (tire_forces REAR_LEFT)
  { v with
    m_front_susp := front2
    m_rear_susp := rear2
    m_powertrain := pw
    m_front_right_brake := v.m_front_right_brake.ApplyBrakeModulation braking
    m_front_left_brake := v.m_front_left_brake.ApplyBrakeModulation braking
    m_rear_right_brake := v.m_rear_right_brake.ApplyBrakeModulation braking
    m_rear_left_brake := v.m_rear_left_brake.ApplyBrakeModulation braking }

/-! ### Concrete instances used by the witness theorems -/

/-- Concrete powertrain data: forward ratio 4, reverse ratio -3, max torque
300, max speed 600 (the end-to-end scenario of spec section 8). -/
def examplePT : PowertrainData :=
  { gearRatioFwd := 4, gearRatioRev := -3, maxTorque := 300, maxSpeed := 600 }

/-- Concrete powertrain state after Initialize on examplePT. -/
def examplePTState : ChSimplePowertrain :=
  { m_drive_mode := DriveMode.FORWARD
    m_gear_cur := 4
    m_motorSpeed := 0
    m_motorTorque := 0
    m_shaftTorque := 0 }

/-- Concrete direction vector. -/
def exampleVec : Vec3 := { x := 1, y := 0, z := 0 }

/-- Concrete chassis body registered with a physical system. -/
def exampleChassis : ChBody := { m_system := some 0 }

/-- Concrete axle shaft. -/
def exampleShaft : ChShaft := { m_inertia := 1 }

/-- Concrete driveline data with the spec-modelled differential ratio. -/
def exampleDD : DrivelineData :=
  { driveshaftInertia := 1
    diffBoxInertia := 2
    conicalRatioT := 1 / 5
    differentialT0 := HMMWV_GetDifferentialRatioT0 }

/-- The driveline state produced by Initialize on the concrete inputs. -/
def exampleDrivelineInit : ChShaftsDriveline2WD :=
  { m_dir_motor_block := exampleVec
    m_dir_axle := exampleVec
    m_driveshaft := { m_inertia := 1 }
    m_differentialbox := { m_inertia := 2 }
    m_conicalgear :=
      { shaft1 := { m_inertia := 1 }
        shaft2 := { m_inertia := 2 }
        truss := exampleChassis
        dir1 := exampleVec
        dir2 := exampleVec
        transmission := 1 / 5 }
    m_differential :=
      { carrier := { m_inertia := 2 }
        shaft2 := exampleShaft
        shaft3 := exampleShaft
        t0 := -1
        torqueReact2 := 0
        torqueReact3 := 0 } }

/-- A driveline whose differential reports nonzero reaction torques. -/
def exampleDrivelineLoaded : ChShaftsDriveline2WD :=
  { exampleDrivelineInit with
    m_differential :=
      { exampleDrivelineInit.m_differential with
        torqueReact2 := 5
        torqueReact3 := 7 } }

/-- A zero tire force. -/
def exampleTF : ChTireForce :=
  { force := { x := 0, y := 0, z := 0 }
    moment := { x := 0, y := 0, z := 0 }
    point := { x := 0, y := 0, z := 0 } }

/-- A concrete suspension state. -/
def exampleSusp : ChSuspension :=
  { m_spindle := fun sd => match sd with | Side.LEFT => 10 | Side.RIGHT => 11
    m_spindlePos := fun _ => { x := 0, y := 1, z := 0 }
    m_spindleRot := fun _ => { e0 := 1, e1 := 0, e2 := 0, e3 := 0 }
    m_spindleLinVel := fun _ => { x := 0, y := 0, z := 0 }
    m_spindleAngVel := fun _ => { x := 0, y := 0, z := 0 }
    m_axleSpeed := fun _ => 2
    m_springForce := fun _ => 3
    m_springLen := fun _ => 4
    m_steerDispl := 0
    m_appliedTireForce := fun _ => exampleTF }

/-- A concrete vehicle assembly state. -/
def exampleVehicle : HMMWV_VehicleSolidAxle :=
  { m_front_susp := exampleSusp
    m_rear_susp := exampleSusp
    m_front_right_brake := { m_modulation := 0 }
    m_front_left_brake := { m_modulation := 0 }
    m_rear_right_brake := { m_modulation := 0 }
    m_rear_left_brake := { m_modulation := 0 }
    m_powertrain := none }

end chrono

/-! ## Theorems -/

namespace chrono

/-- Claim C1: for every throttle, shaft speed and cached gear ratio r ≠ 0,
ChSimplePowertrain::Update sets motorSpeed = shaftSpeed / r, sets
motorTorque = (maxTorque - motorSpeed * (maxTorque / maxSpeed)) * throttle
with no clamping of negative torque beyond maxSpeed, and sets
shaftTorque = motorTorque / r; with throttle = 0 the shaft torque is 0 for
any shaft speed, with throttle = 1 and shaftSpeed = 0 the motor torque is
maxTorque, and with throttle = 1 and shaftSpeed = maxSpeed * r the motor
torque is 0. -/
theorem simple_powertrain_update_spec (p : PowertrainData)
    (s : ChSimplePowertrain) (t throttle ω : ℚ) (s2 : ChSimplePowertrain)
    (h2 : s2 = ChSimplePowertrain.Update p s t throttle ω)
    (hr : s.m_gear_cur ≠ 0) (hms : p.maxSpeed ≠ 0) :
    s2.m_motorSpeed = ω / s.m_gear_cur ∧
    s2.m_motorTorque
      = (p.maxTorque - s2.m_motorSpeed * (p.maxTorque / p.maxSpeed)) * throttle ∧
    s2.m_shaftTorque = s2.m_motorTorque / s.m_gear_cur ∧
    (throttle = 0 → s2.m_shaftTorque = 0) ∧
    (throttle = 1 → ω = 0 → s2.m_motorTorque = p.maxTorque) ∧
    (throttle = 1 → ω = p.maxSpeed * s.m_gear_cur → s2.m_motorTorque = 0) := by
  subst h2
  refine ⟨rfl, rfl, rfl, ?_, ?_, ?_⟩
  · intro h0
    simp [ChSimplePowertrain.Update, h0]
  · intro h1 h0
    simp [ChSimplePowertrain.Update, h1, h0]
  · intro h1 h0
    show (p.maxTorque - ω / s.m_gear_cur * (p.maxTorque / p.maxSpeed)) * throttle = 0
    rw [h1, h0, mul_one, mul_div_assoc, div_self hr, mul_one, mul_comm p.maxSpeed,
      div_mul_cancel₀ _ hms, sub_self]

/-- Witness for C1 at the concrete scenario (forward ratio 4, max torque
300, max speed 600), throttle 1, shaft speed 0. -/
theorem simple_powertrain_update_spec_witness :
    (ChSimplePowertrain.Update examplePT examplePTState 0 1 0).m_motorSpeed
      = 0 / examplePTState.m_gear_cur ∧
    (ChSimplePowertrain.Update examplePT examplePTState 0 1 0).m_motorTorque
      = (examplePT.maxTorque
          - (ChSimplePowertrain.Update examplePT examplePTState 0 1 0).m_motorSpeed
            * (examplePT.maxTorque / examplePT.maxSpeed)) * 1 ∧
    (ChSimplePowertrain.Update examplePT examplePTState 0 1 0).m_shaftTorque
      = (ChSimplePowertrain.Update examplePT examplePTState 0 1 0).m_motorTorque
          / examplePTState.m_gear_cur ∧
    ((1 : ℚ) = 0
      → (ChSimplePowertrain.Update examplePT examplePTState 0 1 0).m_shaftTorque = 0) ∧
    ((1 : ℚ) = 1 → (0 : ℚ) = 0
      → (ChSimplePowertrain.Update examplePT examplePTState 0 1 0).m_motorTorque
          = examplePT.maxTorque) ∧
    ((1 : ℚ) = 1 → (0 : ℚ) = examplePT.maxSpeed * examplePTState.m_gear_cur
      → (ChSimplePowertrain.Update examplePT examplePTState 0 1 0).m_motorTorque = 0) :=
  simple_powertrain_update_spec examplePT examplePTState 0 1 0 _ rfl
    (by norm_num [examplePTState]) (by norm_num [examplePT])

/-- Claim C2: GetWheelTorque returns 0 for both front wheels, the negated
reaction torque on member 2 of the planetary differential for REAR_LEFT,
the negated reaction torque on member 3 for REAR_RIGHT, and -1 for any id
outside the four valid wheel values. -/
theorem driveline_wheel_torque_spec (dl : ChShaftsDriveline2WD) :
    dl.GetWheelTorque FRONT_LEFT = 0 ∧
    dl.GetWheelTorque FRONT_RIGHT = 0 ∧
    dl.GetWheelTorque REAR_LEFT = -dl.m_differential.GetTorqueReactionOn2 ∧
    dl.GetWheelTorque REAR_RIGHT = -dl.m_differential.GetTorqueReactionOn3 ∧
    ∀ w : ℕ, w ≠ FRONT_LEFT → w ≠ FRONT_RIGHT → w ≠ REAR_LEFT → w ≠ REAR_RIGHT →
      dl.GetWheelTorque w = -1 := by
  refine ⟨?_, ?_, ?_, ?_, ?_⟩
  · simp [ChShaftsDriveline2WD.GetWheelTorque, FRONT_LEFT]
  · simp [ChShaftsDriveline2WD.GetWheelTorque, FRONT_LEFT, FRONT_RIGHT]
  · simp [ChShaftsDriveline2WD.GetWheelTorque, FRONT_LEFT, FRONT_RIGHT, REAR_LEFT]
  · simp [ChShaftsDriveline2WD.GetWheelTorque, FRONT_LEFT, FRONT_RIGHT, REAR_LEFT,
      REAR_RIGHT]
  · intro w h0 h1 h2 h3
    simp [ChShaftsDriveline2WD.GetWheelTorque, h0, h1, h2, h3]

/-- Witness for C2: at the concrete driveline with reaction torques (5, 7),
the invalid id 4 yields -1 and REAR_LEFT yields -5. -/
theorem driveline_wheel_torque_spec_witness :
    exampleDrivelineLoaded.GetWheelTorque 4 = -1 ∧
    exampleDrivelineLoaded.GetWheelTorque REAR_LEFT = -5 := by
  constructor
  · exact (driveline_wheel_torque_spec exampleDrivelineLoaded).2.2.2.2 4
      (by decide) (by decide) (by decide) (by decide)
  · rw [(driveline_wheel_torque_spec exampleDrivelineLoaded).2.2.1]
    rfl

/-- Claim C3: when Initialize completes (with the HMMWV differential ratio,
spec-modelled as -1), the planetary constraint it created has the
differential box as carrier, the two axle shafts as members 2 and 3, and
ordinary transmission ratio -1. -/
theorem differential_ordinary_t0_neg_one (dd : DrivelineData)
    (dmb da : Vec3) (chassis : Option ChBody) (aL aR : Option ChShaft)
    (hdd : dd.differentialT0 = HMMWV_GetDifferentialRatioT0)
    (dl : ChShaftsDriveline2WD)
    (h : ChShaftsDriveline2WD.Initialize dd dmb da chassis aL aR = some dl) :
    dl.m_differential.t0 = -1 ∧
    dl.m_differential.carrier = dl.m_differentialbox ∧
    (∀ a, aL = some a → dl.m_differential.shaft2 = a) ∧
    (∀ a, aR = some a → dl.m_differential.shaft3 = a) := by
  rcases chassis with _ | c
  · simp [ChShaftsDriveline2WD.Initialize] at h
  rcases aL with _ | l
  · simp [ChShaftsDriveline2WD.Initialize] at h
  rcases aR with _ | r
  · simp [ChShaftsDriveline2WD.Initialize] at h
  rcases hsys : c.m_system with _ | sys
  · simp [ChShaftsDriveline2WD.Initialize, hsys] at h
  · simp only [ChShaftsDriveline2WD.Initialize, hsys, Option.some.injEq] at h
    subst h
    refine ⟨?_, rfl, ?_, ?_⟩
    · simpa [HMMWV_GetDifferentialRatioT0] using hdd
    · intro a ha
      simpa using ha
    · intro a ha
      simpa using ha

/-- Witness for C3 at the concrete initialization inputs. -/
theorem differential_ordinary_t0_neg_one_witness :
    exampleDrivelineInit.m_differential.t0 = -1 ∧
    exampleDrivelineInit.m_differential.carrier
      = exampleDrivelineInit.m_differentialbox :=
  ⟨(differential_ordinary_t0_neg_one exampleDD exampleVec exampleVec
      (some exampleChassis) (some exampleShaft) (some exampleShaft) rfl
      exampleDrivelineInit rfl).1,
   (differential_ordinary_t0_neg_one exampleDD exampleVec exampleVec
      (some exampleChassis) (some exampleShaft) (some exampleShaft) rfl
      exampleDrivelineInit rfl).2.1⟩

/-- Claim C4: for every wheel-identifier value outside the four valid
values, the vehicle position/rotation/velocity accessors return exactly the
front-right spindle value, and GetWheelOmega, GetSpringForce and
GetSpringLength return -1; all accessors are total functions. -/
theorem invalid_wheel_id_fallback (v : HMMWV_VehicleSolidAxle) (w : ℕ)
    (h0 : w ≠ FRONT_LEFT) (h1 : w ≠ FRONT_RIGHT)
    (h2 : w ≠ REAR_LEFT) (h3 : w ≠ REAR_RIGHT) :
    v.GetWheelBody w = v.GetWheelBody FRONT_RIGHT ∧
    v.GetWheelPos w = v.GetWheelPos FRONT_RIGHT ∧
    v.GetWheelRot w = v.GetWheelRot FRONT_RIGHT ∧
    v.GetWheelLinVel w = v.GetWheelLinVel FRONT_RIGHT ∧
    v.GetWheelAngVel w = v.GetWheelAngVel FRONT_RIGHT ∧
    v.GetWheelOmega w = -1 ∧
    v.GetSpringForce w = -1 ∧
    v.GetSpringLength w = -1 := by
  simp only [FRONT_LEFT, FRONT_RIGHT, REAR_LEFT, REAR_RIGHT] at h0 h1 h2 h3
  refine ⟨?_, ?_, ?_, ?_, ?_, ?_, ?_, ?_⟩ <;>
    simp [HMMWV_VehicleSolidAxle.GetWheelBody, HMMWV_VehicleSolidAxle.GetWheelPos,
      HMMWV_VehicleSolidAxle.GetWheelRot, HMMWV_VehicleSolidAxle.GetWheelLinVel,
      HMMWV_VehicleSolidAxle.GetWheelAngVel, HMMWV_VehicleSolidAxle.GetWheelOmega,
      HMMWV_VehicleSolidAxle.GetSpringForce, HMMWV_VehicleSolidAxle.GetSpringLength,
      h0, h1, h2, h3, FRONT_LEFT, FRONT_RIGHT, REAR_LEFT, REAR_RIGHT]

/-- Witness for C4: the invalid id 4 on a concrete vehicle. -/
theorem invalid_wheel_id_fallback_witness :
    exampleVehicle.GetWheelOmega 4 = -1 ∧
    exampleVehicle.GetWheelBody 4 = exampleVehicle.GetWheelBody FRONT_RIGHT := by
  constructor
  · exact (invalid_wheel_id_fallback exampleVehicle 4
      (by decide) (by decide) (by decide) (by decide)).2.2.2.2.2.1
  · exact (invalid_wheel_id_fallback exampleVehicle 4
      (by decide) (by decide) (by decide) (by decide)).1

/-- Claim C5: after SetDriveMode(NEUTRAL) the cached gear ratio is the
effectively infinite 1e20 (nonzero, so no divide-by-zero), and every
subsequent Update yields motorSpeed = shaftSpeed / 1e20 and shaftTorque =
motorTorque / 1e20, both approximately 0: bounded by B / 1e20 and M / 1e20
for any bounds B on the shaft speed and M on the motor torque. -/
theorem neutral_mode_decouples (p : PowertrainData) (s : ChSimplePowertrain)
    (t throttle ω B M : ℚ) (s2 : ChSimplePowertrain)
    (h2 : s2 = ChSimplePowertrain.Update p
      (ChSimplePowertrain.SetDriveMode p s DriveMode.NEUTRAL) t throttle ω) :
    (ChSimplePowertrain.SetDriveMode p s DriveMode.NEUTRAL).m_gear_cur
      = 10 ^ 20 ∧
    ((10 : ℚ) ^ 20) ≠ 0 ∧
    s2.m_motorSpeed = ω / 10 ^ 20 ∧
    s2.m_shaftTorque = s2.m_motorTorque / 10 ^ 20 ∧
    (|ω| ≤ B → |s2.m_motorSpeed| ≤ B / 10 ^ 20) ∧
    (|s2.m_motorTorque| ≤ M → |s2.m_shaftTorque| ≤ M / 10 ^ 20) := by
  have h10 : (0 : ℚ) < 10 ^ 20 := by positivity
  have key : ∀ x y : ℚ, |x| ≤ y → |x / 10 ^ 20| ≤ y / 10 ^ 20 := by
    intro x y hxy
    rw [abs_div, abs_of_pos h10]
    gcongr
  subst h2
  refine ⟨rfl, ne_of_gt h10, rfl, rfl, ?_, ?_⟩
  · intro hB
    exact key ω B hB
  · intro hM
    exact key _ M hM

/-- Witness for C5 at the concrete powertrain, throttle 1, shaft speed 1,
bounds B = 1 and M = 300. -/
theorem neutral_mode_decouples_witness :
    |(ChSimplePowertrain.Update examplePT
        (ChSimplePowertrain.SetDriveMode examplePT examplePTState DriveMode.NEUTRAL)
        0 1 1).m_motorSpeed| ≤ 1 / 10 ^ 20 :=
  (neutral_mode_decouples examplePT examplePTState 0 1 1 1 300 _ rfl).2.2.2.2.1
    (by norm_num)

/-- Claim C6: one vehicle Update pass applies the steering displacement
0.08 * steering to the front suspension only (the rear suspension's
steering state is untouched), invokes the powertrain Update with (time,
throttle), applies tireForces[w] to the spindle of wheel w through the
owning suspension for each of the four wheels, and applies the same
braking value to all four brakes. -/
theorem vehicle_update_single_pass (v : HMMWV_VehicleSolidAxle)
    (time throttle steering braking : ℚ) (tire_forces : ℕ → ChTireForce)
    (v2 : HMMWV_VehicleSolidAxle)
    (h2 : v2 = v.Update time throttle steering braking tire_forces) :
    v2.m_front_susp.m_steerDispl = 0.08 * steering ∧
    v2.m_rear_susp.m_steerDispl = v.m_rear_susp.m_steerDispl ∧
    v2.m_powertrain = some (time, throttle) ∧
    v2.m_front_susp.m_appliedTireForce Side.LEFT = tire_forces FRONT_LEFT ∧
    v2.m_front_susp.m_appliedTireForce Side.RIGHT = tire_forces FRONT_RIGHT ∧
    v2.m_rear_susp.m_appliedTireForce Side.LEFT = tire_forces REAR_LEFT ∧
    v2.m_rear_susp.m_appliedTireForce Side.RIGHT = tire_forces REAR_RIGHT ∧
    v2.m_front_right_brake.m_modulation = braking ∧
    v2.m_front_left_brake.m_modulation = braking ∧
    v2.m_rear_right_brake.m_modulation = braking ∧
    v2.m_rear_left_brake.m_modulation = braking := by
  subst h2
  refine ⟨?_, rfl, rfl, ?_, ?_, ?_, ?_, rfl, rfl, rfl, rfl⟩
  · show (8 / 100 : ℚ) * steering = 0.08 * steering
    norm_num
  · rfl
  · show (if Side.RIGHT = Side.LEFT then tire_forces FRONT_LEFT
      else if Side.RIGHT = Side.RIGHT then tire_forces FRONT_RIGHT
      else v.m_front_susp.m_appliedTireForce Side.RIGHT) = tire_forces FRONT_RIGHT
    rfl
  · rfl
  · show (if Side.RIGHT = Side.LEFT then tire_forces REAR_LEFT
      else if Side.RIGHT = Side.RIGHT then tire_forces REAR_RIGHT
      else v.m_rear_susp.m_appliedTireForce Side.RIGHT) = tire_forces REAR_RIGHT
    rfl

/-- Witness for C6 at concrete inputs: steering 2 gives front displacement
0.16, rear untouched, powertrain invoked with (1, 1/2), brakes at 3/4. -/
theorem vehicle_update_single_pass_witness :
    (exampleVehicle.Update 1 (1 / 2) 2 (3 / 4)
        (fun _ => exampleTF)).m_front_susp.m_steerDispl = 0.08 * 2 ∧
    (exampleVehicle.Update 1 (1 / 2) 2 (3 / 4)
        (fun _ => exampleTF)).m_powertrain = some (1, 1 / 2) ∧
    (exampleVehicle.Update 1 (1 / 2) 2 (3 / 4)
        (fun _ => exampleTF)).m_rear_left_brake.m_modulation = 3 / 4 :=
  ⟨(vehicle_update_single_pass exampleVehicle 1 (1 / 2) 2 (3 / 4)
      (fun _ => exampleTF) _ rfl).1,
   (vehicle_update_single_pass exampleVehicle 1 (1 / 2) 2 (3 / 4)
      (fun _ => exampleTF) _ rfl).2.2.1,
   (vehicle_update_single_pass exampleVehicle 1 (1 / 2) 2 (3 / 4)
      (fun _ => exampleTF) _ rfl).2.2.2.2.2.2.2.2.2.2⟩

/-- Claim C7: for every suspension variant (any point-identifier type) and
every hardpoint, if the right-side table gives (x, y, z), the left-side
point is exactly (x, -y, z): the y coordinate is negated and no other
coordinate differs. -/
theorem left_hardpoints_mirror {α : Type} (tbl : α → Vec3) (i : α) :
    (leftHardpoints tbl i).x = (tbl i).x ∧
    (leftHardpoints tbl i).y = -(tbl i).y ∧
    (leftHardpoints tbl i).z = (tbl i).z :=
  ⟨rfl, rfl, rfl⟩

/-- Claim C8: ChShaftsDriveline2WD::Initialize succeeds exactly when the
chassis and both axle shafts are non-null and the chassis is registered
with a physical system; a violated precondition aborts (returns none, the
assertion-grade failure), and under the precondition the abort branch is
unreachable. -/
theorem driveline_initialize_precondition (dd : DrivelineData)
    (dmb da : Vec3) (chassis : Option ChBody) (aL aR : Option ChShaft) :
    (ChShaftsDriveline2WD.Initialize dd dmb da chassis aL aR).isSome = true ↔
      ((∃ c, chassis = some c ∧ c.m_system.isSome = true) ∧
        aL.isSome = true ∧ aR.isSome = true) := by
  rcases chassis with _ | c
  · simp [ChShaftsDriveline2WD.Initialize]
  · rcases aL with _ | l
    · simp [ChShaftsDriveline2WD.Initialize]
    · rcases aR with _ | r
      · simp [ChShaftsDriveline2WD.Initialize]
      · rcases hsys : c.m_system with _ | sys <;>
          simp [ChShaftsDriveline2WD.Initialize, hsys]

/-- Witness for C8: a registered chassis and two axle shafts initialize
successfully. -/
theorem driveline_initialize_precondition_witness :
    (ChShaftsDriveline2WD.Initialize exampleDD exampleVec exampleVec
      (some exampleChassis) (some exampleShaft) (some exampleShaft)).isSome
      = true :=
  (driveline_initialize_precondition exampleDD exampleVec exampleVec
      (some exampleChassis) (some exampleShaft) (some exampleShaft)).mpr
    ⟨⟨exampleChassis, rfl, rfl⟩, rfl, rfl⟩

/-- Claim C9 (frame conditions): Update modifies only the three computed
outputs, leaving the drive mode and the cached gear ratio unchanged;
SetDriveMode modifies only the drive mode and the cached gear ratio,
leaving the three computed outputs unchanged — for every prior state and
all arguments. -/
theorem powertrain_frame_conditions (p : PowertrainData)
    (s : ChSimplePowertrain) (t throttle ω : ℚ) (mode : DriveMode) :
    (ChSimplePowertrain.Update p s t throttle ω).m_drive_mode
      = s.m_drive_mode ∧
    (ChSimplePowertrain.Update p s t throttle ω).m_gear_cur = s.m_gear_cur ∧
    (ChSimplePowertrain.SetDriveMode p s mode).m_motorSpeed
      = s.m_motorSpeed ∧
    (ChSimplePowertrain.SetDriveMode p s mode).m_motorTorque
      = s.m_motorTorque ∧
    (ChSimplePowertrain.SetDriveMode p s mode).m_shaftTorque
      = s.m_shaftTorque ∧
    (ChSimplePowertrain.SetDriveMode p s mode).m_drive_mode = mode :=
  ⟨rfl, rfl, rfl, rfl, rfl, rfl⟩

/-- Claim C10: the powertrain Update result does not depend on the time
argument: two calls with different times but the same throttle, shaft
speed and prior state leave identical powertrain states. -/
theorem powertrain_update_time_invariant (p : PowertrainData)
    (s : ChSimplePowertrain) (t1 t2 throttle ω : ℚ) :
    ChSimplePowertrain.Update p s t1 throttle ω
      = ChSimplePowertrain.Update p s t2 throttle ω :=
  rfl

end chrono
